import Mathlib

/-! Verification development for the whatsapp-automessage repository.

The Go sources are shallowly embedded: pure string manipulation is
translated directly; interactions with the file system, the Chrome
DevTools protocol (chromedp) and the DOM are modelled as oracle
parameters (environment records) that record the outcome of each
external call; Go map iteration, whose order the Go specification
leaves unspecified and whose runtime randomizes, is modelled as an
explicit order parameter constrained to be a permutation of the map
entries.
-/

namespace WA

/-! Section: String helpers (strings.TrimSpace, strings.ToLower, capitalization) -/

/-- Whitespace predicate used by strings.TrimSpace, restricted to the
ASCII whitespace characters (space, tab, newline, vertical tab, form
feed, carriage return); the Unicode space classes accepted by Go are
not needed by any claim. -/
def isGoSpace (c : Char) : Bool :=
  c == ' ' || c == '\t' || c == '\n' || c == '\r' ||
    c == Char.ofNat 11 || c == Char.ofNat 12

/-- Character-list version of strings.TrimSpace: drop whitespace from
both ends. -/
def trimChars (l : List Char) : List Char :=
  ((l.dropWhile isGoSpace).reverse.dropWhile isGoSpace).reverse

/-- Model of strings.TrimSpace. -/
def goTrim (s : String) : String :=
  String.mk (trimChars s.data)

/-- Model of strings.ToLower on the ASCII range (the source only
compares against ASCII keywords such as "name" and "phone_number"). -/
def goToLower (s : String) : String :=
  String.mk (s.data.map Char.toLower)

/-- Capitalization of a field name performed by ParseCSV:
strings.ToUpper(fieldName[:1]) + fieldName[1:], modelled on the first
character (the source slices the first byte; they agree on ASCII
headers). -/
def capitalizeFirst (s : String) : String :=
  match s.data with
  | [] => ""
  | c :: rest => String.mk (c.toUpper :: rest)

/-! Section: Association lists standing for Go string maps

A Go map[string]string is represented by an association list with
distinct keys kept in insertion order; assignment m[k] = v is putField
(replace or append) and reading is lookupField (first match). -/

def putField : List (String × String) → String → String → List (String × String)
  | [], k, v => [(k, v)]
  | (k0, v0) :: rest, k, v =>
    if k0 = k then (k0, v) :: rest else (k0, v0) :: putField rest k v

def lookupField : List (String × String) → String → Option String
  | [], _ => none
  | (k0, v0) :: rest, k => if k0 = k then some v0 else lookupField rest k

/-! Section: Contact (csv_parser.go) -/

/-- Contact from csv_parser.go: Name, PhoneNumber, and the dynamic
Fields map (association list with distinct keys). -/
structure Contact where
  name : String
  phoneNumber : String
  fields : List (String × String)
  deriving Repr, DecidableEq

/-! Section: CompletedTracker (completed_tracker.go, src/unnamed/part_000) -/

/-- In-memory state of CompletedTracker: the key set of the completed
map (only hash keys decide IsCompleted) and the stored message
template.  The backing CSV file is abstracted away: load fills the
initial key set, appendToFile does not affect the in-memory map. -/
structure CompletedTracker where
  completed : List String
  messageTemplate : String
  deriving Repr, DecidableEq

/-- SHA-256 hex digest used by generateHash.  The digest comes from the
Go standard library (crypto/sha256), outside this repository; it is
modelled as an injective encoding of its input: the development relies
only on the facts that equal inputs give equal digests and that the
distinct concrete preimage strings appearing below give distinct
digests, both true of the real function. -/
def sha256hex (s : String) : String := s

/-- Preimage string built by generateHash: phone, name and template
joined by a vertical bar, followed by one bar-separated k:v chunk per
entry of the Fields map, in the order the Go range loop yields them.
The Go language specification leaves map iteration order unspecified
(the runtime randomizes it), so the order is an explicit parameter,
constrained in the theorems to be a permutation of the Fields
entries. -/
def generateHashData (messageTemplate : String) (c : Contact)
    (order : List (String × String)) : String :=
  order.foldl (fun acc kv => acc ++ "|" ++ kv.1 ++ ":" ++ kv.2)
    (c.phoneNumber ++ "|" ++ c.name ++ "|" ++ messageTemplate)

/-- Model of CompletedTracker.generateHash. -/
def generateHash (messageTemplate : String) (c : Contact)
    (order : List (String × String)) : String :=
  sha256hex (generateHashData messageTemplate c order)

/-- Model of CompletedTracker.IsCompleted: membership of the hash in
the completed map, with the field iteration order of this particular
call passed explicitly. -/
def isCompleted (ct : CompletedTracker) (c : Contact)
    (order : List (String × String)) : Bool :=
  ct.completed.contains (generateHash ct.messageTemplate c order)

/-- Key insertion mirroring the Go map assignment
ct.completed[hash] = contact (the key set gains hash if absent). -/
def insertKey (l : List String) (h : String) : List String :=
  if l.contains h then l else l ++ [h]

/-- Model of CompletedTracker.MarkCompleted: the in-memory map gains the
hash unconditionally; the CSV append happens afterwards and its error,
returned to the caller, does not undo the map update.  The Bool result
stands for whether appendToFile succeeded. -/
def markCompleted (ct : CompletedTracker) (c : Contact)
    (order : List (String × String)) (appendOk : Bool) :
    CompletedTracker × Bool :=
  ({ ct with completed :=
      insertKey ct.completed (generateHash ct.messageTemplate c order) },
   appendOk)

/-- Model of CompletedTracker.GetCompletedCount. -/
def getCompletedCount (ct : CompletedTracker) : Nat :=
  ct.completed.length

/-! Section: ParseCSV (csv_parser.go)

The function is modelled from the point where encoding/csv has already
produced the list of records (file opening and the csv wire format are
Go library concerns); records is the list of rows, each a list of cell
strings.  The Go csv reader guarantees that every row has as many
cells as the header, so out-of-range header accesses cannot occur; the
model uses getD with default "" at those spots. -/

/-- Header scan of ParseCSV: one pass recording the last column whose
trimmed, lowered text is "name", and the last whose text is
"phone_number" or "phone" (the Go loop overwrites the index on every
match, and the else-if makes the cases exclusive). -/
def findNamePhone (header : List String) : Option Nat × Option Nat :=
  header.enum.foldl
    (fun acc ic =>
      let col := goToLower (goTrim ic.2)
      if col = "name" then (some ic.1, acc.2)
      else if col = "phone_number" ∨ col = "phone" then (acc.1, some ic.1)
      else acc)
    (none, none)

/-- Skip condition of the contact row loop:
len(row) == 0 || (len(row) > nameIdx && TrimSpace(row[nameIdx]) == ""). -/
def skipRow (ni : Nat) (row : List String) : Bool :=
  row.length == 0 || (decide (ni < row.length) && (goTrim (row.getD ni "") == ""))

/-- Insufficient-columns condition:
len(row) <= nameIdx || len(row) <= phoneIdx. -/
def shortRow (ni pi : Nat) (row : List String) : Bool :=
  row.length ≤ ni || row.length ≤ pi

/-- Fields construction of ParseCSV: every cell whose index is neither
the name nor the phone column is stored under the capitalized
normalized header name, trimmed, with Go map assignment semantics. -/
def buildFields (normHeaders : List String) (ni pi : Nat) (row : List String) :
    List (String × String) :=
  row.enum.foldl
    (fun acc jv =>
      if jv.1 ≠ ni ∧ jv.1 ≠ pi then
        putField acc (capitalizeFirst (normHeaders.getD jv.1 "")) (goTrim jv.2)
      else acc)
    []

/-- Contact built from a row that passed the skip and column checks. -/
def mkContact (normHeaders : List String) (ni pi : Nat) (row : List String) :
    Contact :=
  { name := goTrim (row.getD ni "")
    phoneNumber := goTrim (row.getD pi "")
    fields := buildFields normHeaders ni pi row }

/-- Per-row outcome of the ParseCSV loop body for the row with Go loop
index i (error messages report i+1, the 1-based row number counting
the header). -/
inductive RowRes where
  | skip : RowRes
  | err : String → RowRes
  | okC : Contact → RowRes
  deriving Repr, DecidableEq

/-- Row classification following the source order: skip, insufficient
columns, empty phone number, contact. -/
def rowRes (normHeaders : List String) (ni pi i : Nat) (row : List String) :
    RowRes :=
  if skipRow ni row then .skip
  else if shortRow ni pi row then
    .err ("row " ++ toString (i + 1) ++ " has insufficient columns")
  else if goTrim (row.getD pi "") = "" then
    .err ("row " ++ toString (i + 1) ++ " has empty phone number")
  else .okC (mkContact normHeaders ni pi row)

/-- Contact produced by a row, if any: none for skipped rows and also
for error rows (which in the full function abort parsing instead). -/
def rowToContact (normHeaders : List String) (ni pi : Nat) (row : List String) :
    Option Contact :=
  if skipRow ni row then none
  else if shortRow ni pi row then none
  else if goTrim (row.getD pi "") = "" then none
  else some (mkContact normHeaders ni pi row)

/-- Condition under which a row makes ParseCSV return an error: the row
is not skipped and is either too short for the name or phone index or
has an empty trimmed phone cell. -/
def errRow (ni pi : Nat) (row : List String) : Bool :=
  !skipRow ni row &&
    (shortRow ni pi row || (goTrim (row.getD pi "") == ""))

/-- Row loop of ParseCSV: rows processed in order, first error aborts. -/
def parseRows (normHeaders : List String) (ni pi : Nat) :
    Nat → List (List String) → Except String (List Contact)
  | _, [] => .ok []
  | i, row :: rest =>
    match rowRes normHeaders ni pi i row with
    | .skip => parseRows normHeaders ni pi (i + 1) rest
    | .err m => .error m
    | .okC c => (parseRows normHeaders ni pi (i + 1) rest).map (c :: ·)

/-- Model of ParseCSV from the parsed records onwards. -/
def parseCSV (records : List (List String)) : Except String (List Contact) :=
  match records with
  | [] => .error "CSV file is empty"
  | header :: body =>
    let normHeaders := header.map goTrim
    match findNamePhone header with
    | (some ni, some pi) => parseRows normHeaders ni pi 1 body
    | _ => .error "CSV must contain \x27name\x27 and \x27phone_number\x27 columns"

/-! Section: MessageTemplate (template.go, src/unnamed/part_002)

text/template parsing and execution live in the Go standard library;
execution is therefore an oracle: a function from the data map the
source builds to either the rendered string or an error.  What the
repository contributes, and what is embedded, is the construction of
that data map and the handling of the outcome. -/

/-- MessageTemplate: the raw content (used as part of the dedup hash)
and the execution oracle standing for tmpl.Execute. -/
structure MessageTemplate where
  content : String
  exec : (String → Option String) → Except String String

/-- Data map built by MessageTemplate.Render: Name and PhoneNumber are
set first, then every dynamic field is assigned, so a field literally
keyed "Name" or "PhoneNumber" overrides the base entry, exactly as the
later Go map assignments do. -/
def buildData (c : Contact) : String → Option String := fun k =>
  match lookupField c.fields k with
  | some v => some v
  | none =>
    if k = "Name" then some c.name
    else if k = "PhoneNumber" then some c.phoneNumber
    else none

/-- Model of MessageTemplate.Render: execute the template against the
data map; an execution error is wrapped and returned. -/
def renderModel (mt : MessageTemplate) (c : Contact) : Except String String :=
  match mt.exec (buildData c) with
  | .error e => .error ("failed to render template: " ++ e)
  | .ok s => .ok s

/-! Section: Campaign loop (main.go of the tracker variant, src/unnamed/part_004)

The loop walks the contact slice in order.  Per contact it consults
IsCompleted, renders, honours dry-run, sends, and on a successful send
calls MarkCompleted (whose file-append error is only logged).  The
send outcome per position, the append outcome, and the map iteration
orders used by the IsCompleted and MarkCompleted calls are oracles. -/

/-- Outcome recorded for one contact by the processing loop. -/
inductive Outcome where
  | skipped : Outcome
  | renderFailed : Outcome
  | dryOk : Outcome
  | sent : Outcome
  | sendFailed : Outcome
  deriving Repr, DecidableEq

/-- Trace entry: which contact was processed and how it ended. -/
structure TraceEntry where
  contact : Contact
  outcome : Outcome
  deriving Repr, DecidableEq

/-- Oracles of one loop run. -/
structure LoopEnv where
  dryRun : Bool
  send : Nat → Except String Unit
  isOrder : Nat → List (String × String)
  markOrder : Nat → List (String × String)
  appendOk : Nat → Bool

/-- Model of the contact processing loop of main (part_004, lines
84-147), with the loop index threaded through for the oracles.  The
returned trace lists the contacts in processing order with their
outcomes; the tracker is the final in-memory state. -/
def processContacts (mt : MessageTemplate) (env : LoopEnv) :
    CompletedTracker → Nat → List Contact →
    List TraceEntry × CompletedTracker
  | ct, _, [] => ([], ct)
  | ct, i, c :: rest =>
    if isCompleted ct c (env.isOrder i) then
      let r := processContacts mt env ct (i + 1) rest
      (⟨c, .skipped⟩ :: r.1, r.2)
    else
      match renderModel mt c with
      | .error _ =>
        let r := processContacts mt env ct (i + 1) rest
        (⟨c, .renderFailed⟩ :: r.1, r.2)
      | .ok _ =>
        if env.dryRun then
          let r := processContacts mt env ct (i + 1) rest
          (⟨c, .dryOk⟩ :: r.1, r.2)
        else
          match env.send i with
          | .error _ =>
            let r := processContacts mt env ct (i + 1) rest
            (⟨c, .sendFailed⟩ :: r.1, r.2)
          | .ok _ =>
            let ct2 := (markCompleted ct c (env.markOrder i) (env.appendOk i)).1
            let r := processContacts mt env ct2 (i + 1) rest
            (⟨c, .sent⟩ :: r.1, r.2)

/-! Section: Retry loop of WhatsAppClient.SendMessage (whatsapp_client.go 168-201)

Durations are modelled in seconds as exact rationals; the float64
multiplication and the truncation to integer nanoseconds performed by
time.Duration are abstracted to exact rational arithmetic.  The result
of each sendMessageAttempt is an oracle indexed by the attempt number
(none = success, some e = failure with error text e). -/

/-- Retry section of config.yaml (config.go). -/
structure RetryConfig where
  maxRetries : Nat
  initialDelaySeconds : Nat
  maxDelaySeconds : Nat
  backoffMultiplier : Rat

/-- One backoff update of the loop: multiply, then clamp to
MaxDelaySeconds when the product exceeds it. -/
def nextDelay (cfg : RetryConfig) (d : Rat) : Rat :=
  let d2 := d * cfg.backoffMultiplier
  if (cfg.maxDelaySeconds : Rat) < d2 then (cfg.maxDelaySeconds : Rat) else d2

/-- Delay slept before the (n+1)-th retry: starts at
InitialDelaySeconds and is updated by nextDelay after each retry. -/
def delaySeq (cfg : RetryConfig) : Nat → Rat
  | 0 => (cfg.initialDelaySeconds : Rat)
  | n + 1 => nextDelay cfg (delaySeq cfg n)

/-- Error string of the final return:
fmt.Errorf("failed after %d retries: %w", MaxRetries, lastErr). -/
def wrapFail (cfg : RetryConfig) (e : String) : String :=
  "failed after " ++ toString cfg.maxRetries ++ " retries: " ++ e

/-- Observable outcome of one SendMessage call: the returned value, the
sleeps performed in order, and the number of attempts made. -/
structure SendOutcome where
  result : Except String Unit
  sleeps : List Rat
  attemptsMade : Nat

/-- Body of the retry for-loop.  fuel is the number of loop iterations
still permitted (maxRetries + 1 - k at entry), k the attempt counter,
d the current retryDelay, lastErr the last recorded attempt error.
Iterations with k > 0 sleep d first and then apply the backoff
update, exactly as lines 179-189 do. -/
def sendLoop (cfg : RetryConfig) (att : Nat → Option String) :
    Nat → Nat → Rat → String → SendOutcome
  | 0, _, _, lastErr => ⟨.error (wrapFail cfg lastErr), [], 0⟩
  | fuel + 1, k, d, _lastErr =>
    let sleeps0 : List Rat := if k = 0 then [] else [d]
    let d2 := if k = 0 then d else nextDelay cfg d
    match att k with
    | none => ⟨.ok (), sleeps0, 1⟩
    | some e =>
      let rest := sendLoop cfg att fuel (k + 1) d2 e
      ⟨rest.result, sleeps0 ++ rest.sleeps, rest.attemptsMade + 1⟩

/-- Sleep sequence of n retries entered with current delay d: d, then
the backoff updates of d, n terms in all. -/
def delays (cfg : RetryConfig) : Rat → Nat → List Rat
  | _, 0 => []
  | d, n + 1 => d :: delays cfg (nextDelay cfg d) n

/-- Rate limiting section of config.yaml (config.go).  MessagesPerSecond
is a Go int. -/
structure RateLimitingConfig where
  enabled : Bool
  messagesPerSecond : Int

/-- Rate limiter installed by NewWhatsAppClient (whatsapp_client.go
24-36): when rate limiting is enabled with a positive rate, a tick
channel of period time.Second / MessagesPerSecond; the period is held
in nanoseconds (time.Second = 1000000000, Go integer division). -/
def newClientRateLimiter (rl : RateLimitingConfig) : Option Int :=
  if rl.enabled ∧ 0 < rl.messagesPerSecond then
    some ((1000000000 : Int) / rl.messagesPerSecond)
  else none

/-- Observable outcome of WhatsAppClient.SendMessage: whether the call
blocked on the rate limiter channel before anything else, and the
retry loop outcome. -/
structure SendMessageRun where
  waitedOnRateLimiter : Bool
  run : SendOutcome

/-- Retry loop as entered by SendMessage: attempt counter 0, retryDelay
initialized to InitialDelaySeconds seconds, maxRetries + 1 iterations
available. -/
def sendMessageRetryRun (cfg : RetryConfig) (att : Nat → Option String) :
    SendOutcome :=
  sendLoop cfg att (cfg.maxRetries + 1) 0 (cfg.initialDelaySeconds : Rat) ""

/-- Model of WhatsAppClient.SendMessage: the receive from the rate
limiter channel happens first, iff the limiter was installed; then the
retry loop runs. -/
def clientSendMessage (rl : RateLimitingConfig) (cfg : RetryConfig)
    (att : Nat → Option String) : SendMessageRun :=
  ⟨(newClientRateLimiter rl).isSome, sendMessageRetryRun cfg att⟩

/-! Section: sendMessageAttempt and sendImageWithCaption (whatsapp_client.go)

Every chromedp interaction is an oracle recording the outcome the
browser produced: wait-visible cascades become predicates on selector
indices, Evaluate results become plain values, and errors of wrapped
library calls carry the underlying error text.  Sleeps, logging, the
starting-chat spinner wait and screenshots have no effect on the
returned value and are not represented.  The verification loop at the
end of the text path polls the count of div elements carrying
data-pre-plain-text; the successive poll results obtained inside the
20-second window are the list polledCounts. -/

/-- First index below n accepted by vis, scanning from i upwards: the
shape of every selector fallback loop in the source. -/
def firstHitFrom (vis : Nat → Bool) : Nat → Nat → Option Nat
  | 0, _ => none
  | n + 1, i => if vis i then some i else firstHitFrom vis n (i + 1)

/-- First accepted index among 0..n-1. -/
def firstHit (vis : Nat → Bool) (n : Nat) : Option Nat :=
  firstHitFrom vis n 0

/-- Message input selectors of sendMessageAttempt (lines 301-306), in
source order. -/
def inputSelectors : List String :=
  ["//div[@contenteditable=\x27true\x27][@data-tab=\x2710\x27]",
   "//div[@contenteditable=\x27true\x27][@role=\x27textbox\x27][@title=\x27Type a message\x27]",
   "//div[@contenteditable=\x27true\x27][@data-lexical-editor=\x27true\x27]",
   "//div[contains(@class, \x27copyable-text\x27)]//div[@contenteditable=\x27true\x27]"]

/-- True iff the Except carries a value (err == nil in Go). -/
def exceptOk (e : Except String Unit) : Bool :=
  match e with
  | .ok _ => true
  | .error _ => false

/-- Oracles of one sendImageWithCaption call. -/
structure ImageSendEnv where
  statOk : Bool
  absErr : Option String
  readErr : Option String
  navErr : Option String
  chatVisible : Nat → Bool
  clipboardExecErr : Option String
  clipboardSuccess : Bool
  inputClickable : Nat → Bool
  pasteErr : Option String
  sendClickable : Nat → Bool

/-- Model of sendImageWithCaption (lines 552-907).  The caption block
(lines 766-865) only logs and types: whether or not a caption input is
found, it never returns, so it does not appear in the control flow.
After the send button is clicked the function sleeps 8 seconds and
returns nil with no verification of any message count. -/
def sendImageWithCaption (imagePath : String) (env : ImageSendEnv) :
    Except String Unit :=
  if env.statOk = false then .error ("image file not found: " ++ imagePath)
  else match env.absErr with
  | some e => .error ("failed to get absolute image path: " ++ e)
  | none => match env.readErr with
  | some e => .error ("failed to read image file: " ++ e)
  | none => match env.navErr with
  | some e => .error ("failed to navigate to chat for image: " ++ e)
  | none =>
    match firstHit env.chatVisible 3 with
    | none => .error "chat did not load - cannot send image"
    | some _ =>
      match env.clipboardExecErr with
      | some e => .error ("failed to execute clipboard code: " ++ e)
      | none =>
        if env.clipboardSuccess = false then
          .error "failed to copy image to clipboard"
        else match firstHit env.inputClickable 3 with
        | none => .error "could not find message input box"
        | some _ =>
          match env.pasteErr with
          | some e => .error ("failed to paste image: " ++ e)
          | none =>
            match firstHit env.sendClickable 5 with
            | none => .error "could not find send button for image"
            | some _ => .ok ()

/-- Oracles of one sendMessageAttempt call. -/
structure AttemptEnv where
  imageConfigured : Bool
  imagePath : String
  image : ImageSendEnv
  navErr : Option String
  countBefore : Nat
  inputVisible : Nat → Bool
  invalidTextPresent : Bool
  clickErr : Option String
  typingOk : Bool
  typedTextLen : Nat
  advancedOk : Bool
  finalTextLen : Nat
  enterErr : Option String
  polledCounts : List Nat

/-- Result of one attempt together with the selector the cascade
settled on (none when the cascade was not reached or found nothing). -/
structure AttemptResult where
  result : Except String Unit
  usedSelector : Option String

/-- Whether some poll of the verification loop saw strictly more
message bubbles than were counted before the send. -/
def countIncreased (env : AttemptEnv) : Bool :=
  env.polledCounts.any (fun c => env.countBefore < c)

/-- Model of sendMessageAttempt (lines 203-549).  The image branch runs
first when an image path is configured and returns nil on its success;
its failure falls through to the text path.  The text path: navigate,
record the bubble count, find an input selector (invalid-number check
when none is visible), click, type (method 1), fall back to DOM
manipulation (method 2), verify the input is non-empty, press Enter,
and poll until the bubble count exceeds the recorded one. -/
def sendMessageAttempt (phoneNumber : String) (env : AttemptEnv) :
    AttemptResult :=
  if env.imageConfigured = true ∧
      exceptOk (sendImageWithCaption env.imagePath env.image) = true then
    ⟨.ok (), none⟩
  else
    match env.navErr with
    | some e => ⟨.error ("failed to navigate to chat: " ++ e), none⟩
    | none =>
      match firstHit env.inputVisible 4 with
      | none =>
        if env.invalidTextPresent then
          ⟨.error ("invalid phone number: " ++ phoneNumber), none⟩
        else
          ⟨.error "could not find message input box (chat may not have loaded)",
           none⟩
      | some i =>
        let sel := inputSelectors.getD i ""
        match env.clickErr with
        | some e => ⟨.error ("failed to click message input: " ++ e), some sel⟩
        | none =>
          let textPasted := env.typingOk && decide (0 < env.typedTextLen)
          if textPasted = false ∧ env.advancedOk = false then
            ⟨.error "failed to input message using all available methods",
             some sel⟩
          else if env.finalTextLen = 0 then
            ⟨.error "text input failed - input box is empty after all methods",
             some sel⟩
          else match env.enterErr with
          | some e =>
            ⟨.error ("failed to send message with Enter key: " ++ e), some sel⟩
          | none =>
            if countIncreased env then ⟨.ok (), some sel⟩
            else
              ⟨.error "message was not sent - no new message bubble appeared in chat",
               some sel⟩

/-! Section: sendMessage of the flag-driven CLI (src/main.go, lines 301-343) -/

/-- Input selectors of the CLI sendMessage, in source order. -/
def cliInputSelectors : List String :=
  ["div[contenteditable=\x27true\x27][data-tab=\x2710\x27]",
   "div[contenteditable=\x27true\x27][role=\x27textbox\x27]"]

/-- Sentinel error of main.go: errors.New("invalid number"). -/
def errInvalidNumber : String := "invalid number"

/-- Oracles of one CLI sendMessage call: navigation outcome, the
waitForChatOrInvalid verdict (ok true = invalid-number text seen,
ok false = chat ready, error = timeout or protocol failure), the
visibility of the two input selectors, and the outcome of the
focus/type/Enter action batch. -/
structure CliSendEnv where
  navErr : Option String
  chat : Except String Bool
  inputVisible : Nat → Bool
  actionsErr : Option String

/-- Result of the CLI sendMessage with the selector chosen by its
cascade. -/
structure CliSendResult where
  result : Except String Unit
  usedSelector : Option String

/-- Model of main.go sendMessage: navigate, wait for the chat or the
invalid-number text (dismissInvalid only clicks and ignores failures),
then the two-selector cascade; the first visible selector is used for
the focus, SendKeys and Enter actions. -/
def cliSendMessage (env : CliSendEnv) : CliSendResult :=
  match env.navErr with
  | some e => ⟨.error e, none⟩
  | none =>
    match env.chat with
    | .error e => ⟨.error e, none⟩
    | .ok true => ⟨.error errInvalidNumber, none⟩
    | .ok false =>
      match firstHit env.inputVisible 2 with
      | none => ⟨.error "could not find message input field", none⟩
      | some i =>
        let sel := cliInputSelectors.getD i ""
        match env.actionsErr with
        | some e => ⟨.error e, some sel⟩
        | none => ⟨.ok (), some sel⟩

/-! Section: randomDelay (src/main.go, lines 396-402) -/

/-- Model of randomDelay.  rnd stands for rand.Int63n: the theorem
assumes its contract, 0 <= rnd n < n for 0 < n.  Durations are exact
integers (nanoseconds); the int64 wrap-around that Go would exhibit on
astronomically large flag values is outside the model. -/
def randomDelay (minD maxD : Int) (rnd : Int → Int) : Int :=
  if maxD ≤ minD then minD
  else minD + rnd (maxD - minD + 1)

/-! Section: Concrete data used by counterexamples and witnesses -/

/-- Contact with two dynamic fields, for exercising the map iteration
order of generateHash. -/
def cBob : Contact :=
  ⟨"Bob", "972500000000", [("City", "TLV"), ("Deal", "Gold")]⟩

/-- One order the Go range loop may yield for the Fields map of cBob. -/
def orderA : List (String × String) := [("City", "TLV"), ("Deal", "Gold")]

/-- The other order the Go range loop may yield for the same map. -/
def orderB : List (String × String) := [("Deal", "Gold"), ("City", "TLV")]

/-- Fresh tracker over message template "T" with an empty completed
file. -/
def t0 : CompletedTracker := ⟨[], "T"⟩

/-- Tracker after marking cBob completed, the range loop having yielded
orderA. -/
def t1 : CompletedTracker := (markCompleted t0 cBob orderA true).1

/-- Template model whose execution always succeeds, used by the loop
counterexample: rendering is deterministic in the contact, so the
re-sent message in the C1 counterexample is identical to the one
already recorded. -/
def mtT : MessageTemplate := ⟨"T", fun _ => .ok "Hello"⟩

/-- Template whose execution always fails, for exercising the
render-failure path of the loop. -/
def mtBad : MessageTemplate := ⟨"T", fun _ => .error "boom"⟩

/-- Loop oracles for the C1 counterexample: sends succeed, IsCompleted
iterates the Fields map as orderB, MarkCompleted as orderA. -/
def envC1 : LoopEnv :=
  ⟨false, fun _ => .ok (), fun _ => orderB, fun _ => orderA, fun _ => true⟩

/-- Image-send environment in which every browser interaction
succeeds. -/
def envImgOk : ImageSendEnv :=
  ⟨true, none, none, none, fun _ => true, none, true, fun _ => true, none,
   fun _ => true⟩

/-- Attempt environment with an image configured, a fully successful
image path, and message-bubble polls that never exceed the count
recorded before the send. -/
def envC4 : AttemptEnv :=
  ⟨true, "pic.png", envImgOk, none, 5, fun _ => true, false, none, true, 10,
   true, 10, none, [5, 5]⟩

/-- Successful text-path environment instantiating the amended C4
theorem: no image is configured and the first poll shows one more
bubble than before. -/
def envC4w : AttemptEnv :=
  ⟨false, "", envImgOk, none, 5, fun _ => true, false, none, true, 10,
   true, 10, none, [6]⟩

/-- Attempt environment whose second input selector is the first
visible one. -/
def envC6 : AttemptEnv :=
  ⟨false, "", envImgOk, none, 5, fun j => decide (j = 1), false, none, true,
   10, true, 10, none, [6]⟩

/-- Retry configuration for the backoff witness: 2 retries, 1 second
initial delay, 10 second cap, multiplier 2. -/
def cfgW : RetryConfig := ⟨2, 1, 10, 2⟩

/-- Attempt oracle for the backoff witness: attempt 0 fails, attempt 1
succeeds. -/
def attW : Nat → Option String := fun k => if k = 1 then none else some "x"

/-! Section: Claim theorems -/

/-- C2: the claim says generateHash is a deterministic function of the
contact, template and Fields map, including when the map holds two or
more entries.  On a two-entry Fields map, two range-loop orders that
are both permutations of the map produce different hashes: the
function comment promises the fields are added in sorted order, but
the code iterates the Go map directly, whose order is unspecified and
randomized. -/
theorem generateHash_order_dependent_bug :
    orderA.Perm cBob.fields ∧ orderB.Perm cBob.fields ∧
    generateHash "T" cBob orderA ≠ generateHash "T" cBob orderB := by
  refine ⟨by decide, by decide, by decide⟩

/-- C9: the claim says MarkCompleted followed by IsCompleted on the
same contact always returns true.  When the IsCompleted call iterates
the two-entry Fields map in the other order, the recomputed hash
misses the stored one and IsCompleted returns false. -/
theorem markCompleted_isCompleted_bug :
    orderA.Perm cBob.fields ∧ orderB.Perm cBob.fields ∧
    isCompleted (markCompleted t0 cBob orderA true).1 cBob orderB = false := by
  refine ⟨by decide, by decide, by decide⟩

/-- C1: the claim says a contact previously marked completed under the
same template, phone, name and fields is always skipped, so no run
re-sends the identical rendered message.  Starting from the tracker
state t1 in which cBob was marked completed (range order orderA), a
run whose IsCompleted call iterates the map as orderB recomputes a
different hash, reports the contact as not completed, and the loop
sends the identical rendered message again. -/
theorem campaign_resend_bug :
    orderA.Perm cBob.fields ∧ orderB.Perm cBob.fields ∧
    t1 = (markCompleted t0 cBob orderA true).1 ∧
    isCompleted t1 cBob orderB = false ∧
    (processContacts mtT envC1 t1 0 [cBob]).1 = [⟨cBob, .sent⟩] := by
  refine ⟨by decide, by decide, rfl, by decide, by decide⟩

/-- C10: randomDelay returns min when max <= min and otherwise a value
in [min, max], given the contract of rand.Int63n; in particular the
result never falls below min whenever min <= max, which main
guarantees by rejecting max-delay < min-delay at startup. -/
theorem randomDelay_bounds (minD maxD : Int) (rnd : Int → Int)
    (hrnd : ∀ n : Int, 0 < n → 0 ≤ rnd n ∧ rnd n < n) :
    (maxD ≤ minD → randomDelay minD maxD rnd = minD) ∧
    (minD < maxD →
      minD ≤ randomDelay minD maxD rnd ∧ randomDelay minD maxD rnd ≤ maxD) ∧
    (minD ≤ maxD → minD ≤ randomDelay minD maxD rnd) := by
  unfold randomDelay
  refine ⟨fun h => if_pos h, fun h => ?_, fun h => ?_⟩
  · rw [if_neg (by omega)]
    have hc := hrnd (maxD - minD + 1) (by omega)
    omega
  · rcases lt_or_eq_of_le h with h2 | h2
    · rw [if_neg (by omega)]
      have hc := hrnd (maxD - minD + 1) (by omega)
      omega
    · rw [if_pos (by omega)]

/-- Witness for C10 at min = 3, max = 7 with a rand.Int63n model that
always returns 0. -/
theorem randomDelay_bounds_witness :
    (3 : Int) < 7 ∧
    3 ≤ randomDelay 3 7 (fun _ => 0) ∧ randomDelay 3 7 (fun _ => 0) ≤ 7 :=
  ⟨by norm_num,
   (randomDelay_bounds 3 7 (fun _ => 0) (fun n hn => ⟨le_refl 0, hn⟩)).2.1
     (by norm_num)⟩

/-- C5: when rate limiting is enabled with a positive
MessagesPerSecond r, NewWhatsAppClient installs a tick channel of
period one second divided by r (nanoseconds, Go integer division) and
SendMessage blocks on it before doing anything else; when disabled or
r is not positive, no channel is installed and no such wait occurs. -/
theorem sendMessage_rate_limit_spec (rl : RateLimitingConfig)
    (cfg : RetryConfig) (att : Nat → Option String) :
    (rl.enabled = true → 0 < rl.messagesPerSecond →
      newClientRateLimiter rl = some ((1000000000 : Int) / rl.messagesPerSecond) ∧
      (clientSendMessage rl cfg att).waitedOnRateLimiter = true) ∧
    ((rl.enabled = false ∨ rl.messagesPerSecond ≤ 0) →
      newClientRateLimiter rl = none ∧
      (clientSendMessage rl cfg att).waitedOnRateLimiter = false) := by
  constructor
  · intro he hr
    have hlim : newClientRateLimiter rl =
        some ((1000000000 : Int) / rl.messagesPerSecond) := by
      unfold newClientRateLimiter
      rw [if_pos ⟨he, hr⟩]
    exact ⟨hlim, by simp [clientSendMessage, hlim]⟩
  · intro h
    have hlim : newClientRateLimiter rl = none := by
      unfold newClientRateLimiter
      rw [if_neg]
      rintro ⟨he, hr⟩
      rcases h with h | h
      · rw [he] at h; cases h
      · omega
    exact ⟨hlim, by simp [clientSendMessage, hlim]⟩

/-- Witness for C5: enabled limiter at 5 messages per second installs a
200000000 ns tick and the send waits on it; a disabled limiter does
not wait. -/
theorem sendMessage_rate_limit_witness :
    (newClientRateLimiter ⟨true, 5⟩ = some ((1000000000 : Int) / 5) ∧
      (clientSendMessage ⟨true, 5⟩ ⟨0, 1, 1, 1⟩ (fun _ => none)).waitedOnRateLimiter
        = true) ∧
    (newClientRateLimiter ⟨false, 5⟩ = none ∧
      (clientSendMessage ⟨false, 5⟩ ⟨0, 1, 1, 1⟩ (fun _ => none)).waitedOnRateLimiter
        = false) :=
  ⟨(sendMessage_rate_limit_spec ⟨true, 5⟩ ⟨0, 1, 1, 1⟩ (fun _ => none)).1 rfl
     (by norm_num),
   (sendMessage_rate_limit_spec ⟨false, 5⟩ ⟨0, 1, 1, 1⟩ (fun _ => none)).2
     (Or.inl rfl)⟩

/-- C4 counterexample: the claim, that a send attempt (including its
image-with-caption path) returns nil only if the polled bubble count
strictly exceeds the count recorded before the send, is false: with an
image configured and the image path succeeding, the attempt returns
nil although every poll still shows the old count, because
sendImageWithCaption returns after clicking the send button and
sleeping, with no count verification. -/
theorem image_path_skips_verification :
    ¬ (∀ (phone : String) (env : AttemptEnv),
        (sendMessageAttempt phone env).result = .ok () →
        countIncreased env = true) := by
  intro h
  have hc := h "123" envC4 rfl
  exact absurd hc (by decide)

/-- C4 as amended: whenever the attempt does not return through the
image-with-caption success path, a nil result implies that some poll
of the verification loop saw strictly more message bubbles than were
counted before the send; if the count never increases within the
window, the text path returns an error. -/
theorem sendMessageAttempt_text_verified (phone : String) (env : AttemptEnv)
    (himg : ¬(env.imageConfigured = true ∧
      exceptOk (sendImageWithCaption env.imagePath env.image) = true)) :
    (sendMessageAttempt phone env).result = .ok () ↔ countIncreased env = true ∧
      env.navErr = none ∧ (firstHit env.inputVisible 4).isSome = true ∧
      env.clickErr = none ∧
      ((env.typingOk && decide (0 < env.typedTextLen)) = true ∨
        env.advancedOk = true) ∧
      env.finalTextLen ≠ 0 ∧ env.enterErr = none := by
  unfold sendMessageAttempt
  rw [if_neg himg]
  rcases hnav : env.navErr with _ | e
  · rcases hsel : firstHit env.inputVisible 4 with _ | i
    · by_cases hinv : env.invalidTextPresent <;> simp [hinv, hsel]
    · rcases hclick : env.clickErr with _ | e2
      · dsimp only
        by_cases hpaste : (env.typingOk && decide (0 < env.typedTextLen)) = false ∧
            env.advancedOk = false
        · rw [if_pos hpaste]
          simp only [hsel, Option.isSome_some]
          constructor
          · intro hh; cases hh
          · rintro ⟨-, -, -, -, hor, -⟩
            rcases hor with hor | hor
            · rw [hor] at hpaste; cases hpaste.1
            · rw [hor] at hpaste; cases hpaste.2
        · rw [if_neg hpaste]
          by_cases hfin : env.finalTextLen = 0
          · simp [hfin, hsel]
          · rw [if_neg hfin]
            rcases henter : env.enterErr with _ | e3
            · by_cases hcnt : countIncreased env = true
              · rw [if_pos hcnt]
                have hor : (env.typingOk && decide (0 < env.typedTextLen)) = true ∨
                    env.advancedOk = true := by
                  by_cases ht : (env.typingOk && decide (0 < env.typedTextLen)) = true
                  · exact Or.inl ht
                  · by_cases ha : env.advancedOk = true
                    · exact Or.inr ha
                    · exact absurd ⟨by simpa using ht, by simpa using ha⟩ hpaste
                simp only [Bool.and_eq_true, decide_eq_true_eq] at hor
                simp [hsel, hcnt, hor, hfin]
              · rw [if_neg hcnt]
                simp [hcnt]
            · simp [henter]
      · simp [hclick]
  · simp [hnav]

/-- Witness for the amended C4 theorem: in envC4w the attempt returns
nil and indeed a poll observed a strictly larger bubble count. -/
theorem sendMessageAttempt_text_verified_witness :
    (sendMessageAttempt "1" envC4w).result = .ok () ∧
    countIncreased envC4w = true :=
  ⟨rfl,
   ((sendMessageAttempt_text_verified "1" envC4w
      (by intro h; exact absurd h.1 (by decide))).mp rfl).1⟩

/-- Soundness of the selector scan: a hit is in range, accepted, and
preceded only by rejected selectors. -/
lemma firstHitFrom_some (vis : Nat → Bool) :
    ∀ (n i j : Nat), firstHitFrom vis n i = some j →
      i ≤ j ∧ j < i + n ∧ vis j = true ∧
        ∀ m, i ≤ m → m < j → vis m = false := by
  intro n
  induction n with
  | zero => intro i j h; cases h
  | succ n ih =>
    intro i j h
    unfold firstHitFrom at h
    by_cases hv : vis i
    · rw [if_pos hv] at h
      cases h
      exact ⟨le_refl i, by omega, hv, fun m h1 h2 => absurd h1 (by omega)⟩
    · rw [if_neg hv] at h
      obtain ⟨h1, h2, h3, h4⟩ := ih (i + 1) j h
      refine ⟨by omega, by omega, h3, fun m hm1 hm2 => ?_⟩
      rcases Nat.eq_or_lt_of_le hm1 with he | hl
      · rw [← he]; simpa using hv
      · exact h4 m hl hm2

/-- Completeness of the selector scan: no hit means every selector in
range was rejected. -/
lemma firstHitFrom_none (vis : Nat → Bool) :
    ∀ (n i : Nat), firstHitFrom vis n i = none →
      ∀ m, i ≤ m → m < i + n → vis m = false := by
  intro n
  induction n with
  | zero => intro i _ m h1 h2; omega
  | succ n ih =>
    intro i h m h1 h2
    unfold firstHitFrom at h
    by_cases hv : vis i
    · rw [if_pos hv] at h; cases h
    · rw [if_neg hv] at h
      rcases Nat.eq_or_lt_of_le h1 with he | hl
      · rw [← he]; simpa using hv
      · exact ih (i + 1) h m hl (by omega)

/-- Selector actually used by the text path once the cascade has
settled on index i: every later branch carries it. -/
lemma sendMessageAttempt_usedSelector (phone : String) (env : AttemptEnv)
    (himg : ¬(env.imageConfigured = true ∧
      exceptOk (sendImageWithCaption env.imagePath env.image) = true))
    (hnav : env.navErr = none) (i : Nat)
    (hsel : firstHit env.inputVisible 4 = some i) :
    (sendMessageAttempt phone env).usedSelector =
      some (inputSelectors.getD i "") := by
  unfold sendMessageAttempt
  rw [if_neg himg]
  simp only [hnav, hsel]
  rcases env.clickErr with _ | e <;> rcases env.enterErr with _ | e2 <;>
    dsimp only <;> split_ifs <;> rfl

/-- C6: both message-input lookups are fixed-order fallback cascades.
In sendMessageAttempt (reached whenever the attempt did not already
return through the image path and navigation succeeded), the first
visible selector of the source-ordered list is the one used for the
subsequent focus and typing actions, earlier selectors all having
failed; when every selector fails the attempt errors, reporting an
invalid phone number exactly when the invalid-number text is present.
The CLI sendMessage behaves the same over its two selectors. -/
theorem selector_cascade_spec :
    (∀ (phone : String) (env : AttemptEnv),
      ¬(env.imageConfigured = true ∧
        exceptOk (sendImageWithCaption env.imagePath env.image) = true) →
      env.navErr = none →
      (∀ i, firstHit env.inputVisible 4 = some i →
        i < 4 ∧ env.inputVisible i = true ∧
        (∀ j, j < i → env.inputVisible j = false) ∧
        (sendMessageAttempt phone env).usedSelector =
          some (inputSelectors.getD i "")) ∧
      (firstHit env.inputVisible 4 = none →
        (∀ j, j < 4 → env.inputVisible j = false) ∧
        (sendMessageAttempt phone env).usedSelector = none ∧
        (sendMessageAttempt phone env).result = .error
          (if env.invalidTextPresent then "invalid phone number: " ++ phone
           else "could not find message input box (chat may not have loaded)"))) ∧
    (∀ env : CliSendEnv, env.navErr = none → env.chat = .ok false →
      (∀ i, firstHit env.inputVisible 2 = some i →
        i < 2 ∧ env.inputVisible i = true ∧
        (∀ j, j < i → env.inputVisible j = false) ∧
        (cliSendMessage env).usedSelector =
          some (cliInputSelectors.getD i "")) ∧
      (firstHit env.inputVisible 2 = none →
        (∀ j, j < 2 → env.inputVisible j = false) ∧
        (cliSendMessage env).result =
          .error "could not find message input field")) := by
  constructor
  · intro phone env himg hnav
    constructor
    · intro i hsel
      obtain ⟨h1, h2, h3, h4⟩ := firstHitFrom_some env.inputVisible 4 0 i hsel
      exact ⟨by omega, h3, fun j hj => h4 j (Nat.zero_le j) hj,
        sendMessageAttempt_usedSelector phone env himg hnav i hsel⟩
    · intro hsel
      refine ⟨fun j hj =>
        firstHitFrom_none env.inputVisible 4 0 hsel j (Nat.zero_le j) (by omega),
        ?_, ?_⟩ <;>
      · unfold sendMessageAttempt
        rw [if_neg himg]
        simp only [hnav, hsel]
        split_ifs <;> rfl
  · intro env hnav hchat
    constructor
    · intro i hsel
      obtain ⟨h1, h2, h3, h4⟩ := firstHitFrom_some env.inputVisible 2 0 i hsel
      refine ⟨by omega, h3, fun j hj => h4 j (Nat.zero_le j) hj, ?_⟩
      unfold cliSendMessage
      simp only [hnav, hchat, hsel]
      rcases env.actionsErr with _ | e <;> rfl
    · intro hsel
      refine ⟨fun j hj =>
        firstHitFrom_none env.inputVisible 2 0 hsel j (Nat.zero_le j) (by omega),
        ?_⟩
      unfold cliSendMessage
      simp only [hnav, hchat, hsel]

/-- Witness for C6: in envC6 the cascade rejects selector 0, settles on
selector 1, and the subsequent actions use that selector. -/
theorem selector_cascade_witness :
    envC6.inputVisible 0 = false ∧ envC6.inputVisible 1 = true ∧
    (sendMessageAttempt "p" envC6).usedSelector =
      some (inputSelectors.getD 1 "") :=
  have h := (selector_cascade_spec.1 "p" envC6
    (by intro h; exact absurd h.1 (by decide)) rfl).1 1 rfl
  ⟨h.2.2.1 0 (by norm_num), h.2.1, h.2.2.2⟩

/-- Every contact appears exactly once, in list order, in the trace of
the processing loop, whatever the tracker state and oracles: no
outcome, including a render failure, aborts the run. -/
lemma processContacts_trace (mt : MessageTemplate) (env : LoopEnv) :
    ∀ (contacts : List Contact) (ct : CompletedTracker) (i : Nat),
      (processContacts mt env ct i contacts).1.map (fun e => e.contact) =
        contacts := by
  intro contacts
  induction contacts with
  | nil => intro ct i; rfl
  | cons c rest ih =>
    intro ct i
    unfold processContacts
    by_cases hic : isCompleted ct c (env.isOrder i) = true
    · simp [hic, ih]
    · cases hr : renderModel mt c with
      | error e => simp [hic, hr, ih]
      | ok s =>
        by_cases hd : env.dryRun = true
        · simp [hic, hr, hd, ih]
        · cases hs : env.send i with
          | error e => simp [hic, hr, hd, hs, ih]
          | ok u => simp [hic, hr, hd, hs, ih]

/-- A trace entry reports renderFailed exactly when the contact was not
skipped and template execution on its data map fails. -/
lemma processContacts_renderFailed (mt : MessageTemplate) (env : LoopEnv) :
    ∀ (contacts : List Contact) (ct : CompletedTracker) (i : Nat)
      (e : TraceEntry), e ∈ (processContacts mt env ct i contacts).1 →
      (e.outcome = .renderFailed ↔
        e.outcome ≠ .skipped ∧ ∃ err, mt.exec (buildData e.contact) = .error err) := by
  intro contacts
  induction contacts with
  | nil => intro ct i e h; simp [processContacts] at h
  | cons c rest ih =>
    intro ct i e h
    unfold processContacts at h
    by_cases hic : isCompleted ct c (env.isOrder i) = true
    · rw [if_pos hic] at h
      rcases List.mem_cons.mp h with he | he
      · subst he; simp
      · exact ih _ _ e he
    · rw [if_neg hic] at h
      rcases hr : renderModel mt c with err | s <;> rw [hr] at h <;> dsimp only at h
      · rcases List.mem_cons.mp h with he | he
        · subst he
          refine iff_of_true rfl ⟨(fun hcon => by cases hcon), ?_⟩
          unfold renderModel at hr
          rcases hx : mt.exec (buildData c) with e0 | s0 <;> rw [hx] at hr
          · exact ⟨e0, rfl⟩
          · cases hr
        · exact ih _ _ e he
      · have hexec : ∀ err, mt.exec (buildData c) ≠ .error err := by
          intro err hx
          unfold renderModel at hr
          rw [hx] at hr
          cases hr
        by_cases hd : env.dryRun = true
        · rw [if_pos hd] at h
          rcases List.mem_cons.mp h with he | he
          · subst he
            refine iff_of_false (fun hcon => by cases hcon) ?_
            rintro ⟨-, err, hx⟩
            exact hexec err hx
          · exact ih _ _ e he
        · rw [if_neg hd] at h
          rcases hs : env.send i with e2 | u <;> rw [hs] at h <;> dsimp only at h
          · rcases List.mem_cons.mp h with he | he
            · subst he
              refine iff_of_false (fun hcon => by cases hcon) ?_
              rintro ⟨-, err, hx⟩
              exact hexec err hx
            · exact ih _ _ e he
          · rcases List.mem_cons.mp h with he | he
            · subst he
              refine iff_of_false (fun hcon => by cases hcon) ?_
              rintro ⟨-, err, hx⟩
              exact hexec err hx
            · exact ih _ _ e he

/-- C7: the campaign loop processes contacts in CSV row order (the
trace lists every contact once, in order, so no per-contact failure
aborts the run); a non-skipped contact fails with renderFailed exactly
when template execution on its data map fails; and the data map passed
to the template holds the contact Name, PhoneNumber and every dynamic
CSV field (fields shadow the two base keys exactly as the later Go map
assignments do). -/
theorem campaign_loop_spec (mt : MessageTemplate) (env : LoopEnv) :
    (∀ (contacts : List Contact) (ct : CompletedTracker) (i : Nat),
      (processContacts mt env ct i contacts).1.map (fun e => e.contact) =
        contacts) ∧
    (∀ (contacts : List Contact) (ct : CompletedTracker) (i : Nat)
      (e : TraceEntry), e ∈ (processContacts mt env ct i contacts).1 →
      (e.outcome = .renderFailed ↔
        e.outcome ≠ .skipped ∧
          ∃ err, mt.exec (buildData e.contact) = .error err)) ∧
    (∀ c : Contact,
      (lookupField c.fields "Name" = none →
        buildData c "Name" = some c.name) ∧
      (lookupField c.fields "PhoneNumber" = none →
        buildData c "PhoneNumber" = some c.phoneNumber) ∧
      (∀ k v, lookupField c.fields k = some v → buildData c k = some v)) := by
  refine ⟨processContacts_trace mt env, processContacts_renderFailed mt env,
    fun c => ⟨?_, ?_, ?_⟩⟩
  · intro h; unfold buildData; rw [h]; simp
  · intro h; unfold buildData; rw [h]; simp
  · intro k v h; unfold buildData; rw [h]

/-- Witness for C7: with an always-failing template the single contact
is still processed (trace in order), its entry reports renderFailed,
and the data map of cBob contains its name, phone and fields. -/
theorem campaign_loop_witness :
    (processContacts mtBad envC1 t0 0 [cBob]).1.map (fun e => e.contact) =
      [cBob] ∧
    ((⟨cBob, .renderFailed⟩ : TraceEntry).outcome = .renderFailed ↔
      (⟨cBob, .renderFailed⟩ : TraceEntry).outcome ≠ .skipped ∧
        ∃ err, mtBad.exec (buildData cBob) = .error err) ∧
    buildData cBob "Name" = some cBob.name ∧
    buildData cBob "City" = some "TLV" :=
  ⟨(campaign_loop_spec mtBad envC1).1 [cBob] t0 0,
   (campaign_loop_spec mtBad envC1).2.1 [cBob] t0 0 ⟨cBob, .renderFailed⟩
     (by decide),
   ((campaign_loop_spec mtBad envC1).2.2 cBob).1 (by decide),
   ((campaign_loop_spec mtBad envC1).2.2 cBob).2.2 "City" "TLV" (by decide)⟩

/-- Characterization of a successful row loop: the contacts are the
filterMap of the per-row classification, and no row satisfies an error
condition. -/
lemma parseRows_ok (normHeaders : List String) (ni pi : Nat) :
    ∀ (rows : List (List String)) (i : Nat) (cs : List Contact),
      parseRows normHeaders ni pi i rows = .ok cs →
      cs = rows.filterMap (rowToContact normHeaders ni pi) ∧
      ∀ row ∈ rows, errRow ni pi row = false := by
  intro rows
  induction rows with
  | nil =>
    intro i cs h
    unfold parseRows at h
    cases h
    exact ⟨rfl, by simp⟩
  | cons row rest ih =>
    intro i cs h
    unfold parseRows at h
    by_cases hskip : skipRow ni row = true
    · rw [show rowRes normHeaders ni pi i row = .skip from by
        unfold rowRes; rw [if_pos hskip]] at h
      dsimp only at h
      obtain ⟨h1, h2⟩ := ih (i + 1) cs h
      have hnone : rowToContact normHeaders ni pi row = none := by
        unfold rowToContact; rw [if_pos hskip]
      refine ⟨by simp [List.filterMap_cons, hnone, h1], ?_⟩
      intro r hr2
      rcases List.mem_cons.mp hr2 with he | he
      · subst he; simp [errRow, hskip]
      · exact h2 r he
    · by_cases hshort : shortRow ni pi row = true
      · rw [show rowRes normHeaders ni pi i row =
            .err ("row " ++ toString (i + 1) ++ " has insufficient columns") from by
          unfold rowRes; rw [if_neg hskip, if_pos hshort]] at h
        dsimp only at h
        cases h
      · by_cases hphone : goTrim (row.getD pi "") = ""
        · rw [show rowRes normHeaders ni pi i row =
              .err ("row " ++ toString (i + 1) ++ " has empty phone number") from by
            unfold rowRes; rw [if_neg hskip, if_neg hshort, if_pos hphone]] at h
          dsimp only at h
          cases h
        · rw [show rowRes normHeaders ni pi i row =
              .okC (mkContact normHeaders ni pi row) from by
            unfold rowRes; rw [if_neg hskip, if_neg hshort, if_neg hphone]] at h
          dsimp only at h
          rcases hrec : parseRows normHeaders ni pi (i + 1) rest with e | cs2 <;>
            rw [hrec] at h <;> dsimp only [Except.map] at h
          · cases h
          · cases h
            obtain ⟨h1, h2⟩ := ih (i + 1) cs2 hrec
            have hsome : rowToContact normHeaders ni pi row =
                some (mkContact normHeaders ni pi row) := by
              unfold rowToContact; rw [if_neg hskip, if_neg hshort, if_neg hphone]
            refine ⟨by simp [List.filterMap_cons, hsome, h1], ?_⟩
            intro r hr2
            rcases List.mem_cons.mp hr2 with he | he
            · subst he
              have hskip2 : skipRow ni r = false := by simpa using hskip
              have hshort2 : shortRow ni pi r = false := by simpa using hshort
              have hphone2 : (goTrim (r.getD pi "") == "") = false := by
                simpa using hphone
              unfold errRow
              rw [hskip2, hshort2, hphone2]
              rfl
            · exact h2 r he

/-- C8: ParseCSV errors on an empty record list and on a header
without a name or a phone column; with valid columns it errors as soon
as some row is non-empty, unskipped, and either too short for the name
or phone index or carrying an empty trimmed phone; rows with an empty
trimmed name cell are silently dropped (the result is the filterMap of
the row classification); and every contact of a successful parse has a
non-empty trimmed name and phone taken from the name and phone
columns. -/
theorem parseCSV_spec :
    parseCSV [] = .error "CSV file is empty" ∧
    (∀ (header : List String) (body : List (List String)),
      ((findNamePhone header).1 = none ∨ (findNamePhone header).2 = none) →
      parseCSV (header :: body) =
        .error "CSV must contain \x27name\x27 and \x27phone_number\x27 columns") ∧
    (∀ (header : List String) (body : List (List String)) (ni pi : Nat)
      (row : List String),
      findNamePhone header = (some ni, some pi) → row ∈ body →
      errRow ni pi row = true → ∃ e, parseCSV (header :: body) = .error e) ∧
    (∀ (records : List (List String)) (cs : List Contact),
      parseCSV records = .ok cs →
      ∃ header body ni pi, records = header :: body ∧
        findNamePhone header = (some ni, some pi) ∧
        cs = body.filterMap (rowToContact (header.map goTrim) ni pi) ∧
        (∀ row ∈ body, errRow ni pi row = false) ∧
        (∀ c ∈ cs, c.name ≠ "" ∧ c.phoneNumber ≠ "" ∧
          ∃ row ∈ body, c.name = goTrim (row.getD ni "") ∧
            c.phoneNumber = goTrim (row.getD pi ""))) := by
  have hok : ∀ (records : List (List String)) (cs : List Contact),
      parseCSV records = .ok cs →
      ∃ header body ni pi, records = header :: body ∧
        findNamePhone header = (some ni, some pi) ∧
        cs = body.filterMap (rowToContact (header.map goTrim) ni pi) ∧
        (∀ row ∈ body, errRow ni pi row = false) ∧
        (∀ c ∈ cs, c.name ≠ "" ∧ c.phoneNumber ≠ "" ∧
          ∃ row ∈ body, c.name = goTrim (row.getD ni "") ∧
            c.phoneNumber = goTrim (row.getD pi "")) := by
    intro records cs h
    rcases records with _ | ⟨header, body⟩
    · cases h
    · unfold parseCSV at h
      dsimp only at h
      rcases hf : findNamePhone header with ⟨a, b⟩
      rw [hf] at h
      rcases a with _ | ni
      · cases h
      · rcases b with _ | pi
        · cases h
        · dsimp only at h
          obtain ⟨h1, h2⟩ := parseRows_ok (header.map goTrim) ni pi body 1 cs h
          refine ⟨header, body, ni, pi, rfl, hf, h1, h2, ?_⟩
          intro c hc
          rw [h1] at hc
          obtain ⟨row, hrow, hrc⟩ := List.mem_filterMap.mp hc
          unfold rowToContact at hrc
          split_ifs at hrc with hs hsh hp
          · cases hrc
            have hs2 : skipRow ni row = false := by simpa using hs
            have hsh2 : shortRow ni pi row = false := by simpa using hsh
            unfold shortRow at hsh2
            rw [Bool.or_eq_false_iff] at hsh2
            have hni : ni < row.length := by
              have := hsh2.1; simp at this; omega
            unfold skipRow at hs2
            rw [Bool.or_eq_false_iff] at hs2
            have hname : goTrim (row.getD ni "") ≠ "" := by
              have h02 := hs2.2
              rw [Bool.and_eq_false_iff] at h02
              rcases h02 with h02 | h02
              · simp at h02; omega
              · simpa using h02
            exact ⟨hname, hp, row, hrow, rfl, rfl⟩
  refine ⟨rfl, ?_, ?_, hok⟩
  · intro header body h
    unfold parseCSV
    dsimp only
    rcases hf : findNamePhone header with ⟨a, b⟩
    rw [hf] at h
    rcases a with _ | ni
    · rfl
    · rcases b with _ | pi
      · rfl
      · rcases h with h | h <;> simp at h
  · intro header body ni pi row hf hrow herr
    rcases hres : parseCSV (header :: body) with e | cs
    · exact ⟨e, rfl⟩
    · obtain ⟨header2, body2, ni2, pi2, heq, hf2, -, hall, -⟩ :=
        hok (header :: body) cs hres
      injection heq with he1 he2
      subst he1
      subst he2
      rw [hf] at hf2
      injection hf2 with hg1 hg2
      injection hg1 with hg1
      injection hg2 with hg2
      subst hg1
      subst hg2
      rw [hall row hrow] at herr
      cases herr

/-- Witness for C8: a two-column CSV with one data row parses to one
contact, and the success characterization applies to it. -/
theorem parseCSV_spec_witness :
    parseCSV [["name", "phone"], ["Ann", "123"]] =
      .ok [⟨"Ann", "123", []⟩] ∧
    ∃ header body ni pi,
      ([["name", "phone"], ["Ann", "123"]] : List (List String)) =
        header :: body ∧
      findNamePhone header = (some ni, some pi) ∧
      ([⟨"Ann", "123", []⟩] : List Contact) =
        body.filterMap (rowToContact (header.map goTrim) ni pi) ∧
      (∀ row ∈ body, errRow ni pi row = false) ∧
      (∀ c ∈ ([⟨"Ann", "123", []⟩] : List Contact),
        c.name ≠ "" ∧ c.phoneNumber ≠ "" ∧
        ∃ row ∈ body, c.name = goTrim (row.getD ni "") ∧
          c.phoneNumber = goTrim (row.getD pi "")) :=
  ⟨rfl, parseCSV_spec.2.2.2 [["name", "phone"], ["Ann", "123"]]
    [⟨"Ann", "123", []⟩] rfl⟩

/-- Sleep list entered with the j-th delay of the backoff sequence:
the next n delays of the sequence. -/
lemma delays_delaySeq (cfg : RetryConfig) :
    ∀ (n j : Nat), delays cfg (delaySeq cfg j) n =
      (List.range n).map (fun i => delaySeq cfg (j + i)) := by
  intro n
  induction n with
  | zero => intro j; rfl
  | succ n ih =>
    intro j
    have h1 : delays cfg (delaySeq cfg j) (n + 1) =
        delaySeq cfg j :: delays cfg (delaySeq cfg (j + 1)) n := rfl
    rw [h1, ih (j + 1), List.range_succ_eq_map, List.map_cons, List.map_map]
    refine congrArg₂ _ (by rw [Nat.add_zero]) (List.map_congr_left ?_)
    intro i _
    simp only [Function.comp_apply]
    congr 1
    omega

/-- Retry loop behaviour when the attempt at offset m from the current
counter k is the first to succeed: the loop sleeps the next m+1 delays
and returns nil after m+1 further attempts. -/
lemma sendLoop_success (cfg : RetryConfig) (att : Nat → Option String) :
    ∀ (m fuel k : Nat) (d : Rat) (e0 : String), 1 ≤ k → m < fuel →
      att (k + m) = none → (∀ j, j < m → att (k + j) ≠ none) →
      sendLoop cfg att fuel k d e0 = ⟨.ok (), delays cfg d (m + 1), m + 1⟩ := by
  intro m
  induction m with
  | zero =>
    intro fuel k d e0 hk hm hnone _
    rcases fuel with _ | f
    · omega
    · unfold sendLoop
      rw [Nat.add_zero] at hnone
      rw [hnone]
      have hk0 : ¬(k = 0) := by omega
      simp [hk0, delays]
  | succ m ih =>
    intro fuel k d e0 hk hm hnone hmin
    rcases fuel with _ | f
    · omega
    · obtain ⟨e, he⟩ : ∃ e, att k = some e := by
        have h0 := hmin 0 (by omega)
        rw [Nat.add_zero] at h0
        rcases hatt : att k with _ | e
        · exact absurd hatt h0
        · exact ⟨e, rfl⟩
      have hrest := ih f (k + 1) (nextDelay cfg d) e (by omega) (by omega)
        (by rw [show k + 1 + m = k + (m + 1) from by omega]; exact hnone)
        (fun j hj => by
          rw [show k + 1 + j = k + (j + 1) from by omega]
          exact hmin (j + 1) (by omega))
      unfold sendLoop
      rw [he]
      have hk0 : ¬(k = 0) := by omega
      simp [hk0, hrest, delays]

/-- Retry loop behaviour when every remaining attempt fails: the loop
sleeps all remaining delays, uses up all remaining attempts, and
returns the wrapped error of the last attempt. -/
lemma sendLoop_allfail (cfg : RetryConfig) (att : Nat → Option String) :
    ∀ (fuel k : Nat) (d : Rat) (e0 : String), 1 ≤ k →
      (∀ j, j < fuel → att (k + j) ≠ none) → att (k - 1) = some e0 →
      ∃ e, att (k + fuel - 1) = some e ∧
        sendLoop cfg att fuel k d e0 =
          ⟨.error (wrapFail cfg e), delays cfg d fuel, fuel⟩ := by
  intro fuel
  induction fuel with
  | zero =>
    intro k d e0 hk _ he0
    refine ⟨e0, ?_, by simp [sendLoop, delays]⟩
    rw [Nat.add_zero]
    exact he0
  | succ f ih =>
    intro k d e0 hk hfail he0
    obtain ⟨e1, he1⟩ : ∃ e, att k = some e := by
      have h0 := hfail 0 (by omega)
      rw [Nat.add_zero] at h0
      rcases hatt : att k with _ | e
      · exact absurd hatt h0
      · exact ⟨e, rfl⟩
    obtain ⟨e, he, hrest⟩ := ih (k + 1) (nextDelay cfg d) e1 (by omega)
      (fun j hj => by
        rw [show k + 1 + j = k + (j + 1) from by omega]
        exact hfail (j + 1) (by omega))
      (by rw [Nat.add_sub_cancel]; exact he1)
    refine ⟨e, ?_, ?_⟩
    · rw [show k + (f + 1) - 1 = k + 1 + f - 1 from by omega]
      exact he
    · unfold sendLoop
      rw [he1]
      have hk0 : ¬(k = 0) := by omega
      simp [hk0, hrest, delays]

/-- Top iteration of the retry loop when attempt 0 succeeds: no sleep,
one attempt, nil. -/
lemma sendLoop_top_none (cfg : RetryConfig) (att : Nat → Option String)
    (d : Rat) (e0 : String) (h : att 0 = none) :
    sendLoop cfg att (cfg.maxRetries + 1) 0 d e0 = ⟨.ok (), [], 1⟩ := by
  simp only [sendLoop, h]
  simp

/-- Top iteration of the retry loop when attempt 0 fails: no sleep, no
backoff update, and the loop continues at attempt 1 with the initial
delay. -/
lemma sendLoop_top_some (cfg : RetryConfig) (att : Nat → Option String)
    (d : Rat) (e0 e : String) (h : att 0 = some e) :
    sendLoop cfg att (cfg.maxRetries + 1) 0 d e0 =
      ⟨(sendLoop cfg att cfg.maxRetries 1 d e).result,
       (sendLoop cfg att cfg.maxRetries 1 d e).sleeps,
       (sendLoop cfg att cfg.maxRetries 1 d e).attemptsMade + 1⟩ := by
  conv_lhs => rw [sendLoop]
  rw [h]
  simp

/-- C3: SendMessage makes at most MaxRetries + 1 attempts; it returns
nil exactly when some attempt within the budget succeeds, and it stops
at the first success, having made k + 1 attempts when attempt k is the
first to succeed; the sleeps performed are the prefix of the
deterministic backoff sequence delaySeq (InitialDelaySeconds, then
multiply by BackoffMultiplier and cap at MaxDelaySeconds, no jitter);
and when every attempt fails the result wraps the error of the last
attempt. -/
theorem sendMessage_retry_spec (cfg : RetryConfig) (att : Nat → Option String) :
    (sendMessageRetryRun cfg att).attemptsMade ≤ cfg.maxRetries + 1 ∧
    ((sendMessageRetryRun cfg att).result = .ok () ↔
      ∃ k, k ≤ cfg.maxRetries ∧ att k = none) ∧
    (sendMessageRetryRun cfg att).sleeps =
      (List.range ((sendMessageRetryRun cfg att).attemptsMade - 1)).map
        (delaySeq cfg) ∧
    ((∀ k, k ≤ cfg.maxRetries → att k ≠ none) →
      ∃ e, att cfg.maxRetries = some e ∧
        (sendMessageRetryRun cfg att).result = .error (wrapFail cfg e) ∧
        (sendMessageRetryRun cfg att).attemptsMade = cfg.maxRetries + 1) ∧
    (∀ k, k ≤ cfg.maxRetries → att k = none → (∀ j, j < k → att j ≠ none) →
      (sendMessageRetryRun cfg att).attemptsMade = k + 1) := by
  have hinit : (cfg.initialDelaySeconds : Rat) = delaySeq cfg 0 := rfl
  by_cases hex : ∃ k, k ≤ cfg.maxRetries ∧ att k = none
  · obtain ⟨kw, hkw, hkwn⟩ := hex
    have hexw : ∃ k, att k = none := ⟨kw, hkwn⟩
    set k0 := Nat.find hexw with hk0def
    have hk0none : att k0 = none := Nat.find_spec hexw
    have hk0min : ∀ j, j < k0 → att j ≠ none := fun j hj => Nat.find_min hexw hj
    have hk0le : k0 ≤ cfg.maxRetries := le_trans (Nat.find_min' hexw hkwn) hkw
    have hrun : sendMessageRetryRun cfg att =
        ⟨.ok (), (List.range k0).map (delaySeq cfg), k0 + 1⟩ := by
      unfold sendMessageRetryRun
      rcases hk0eq : k0 with _ | m
      · rw [hk0eq] at hk0none
        rw [sendLoop_top_none cfg att _ _ hk0none]
        simp
      · obtain ⟨e, he⟩ : ∃ e, att 0 = some e := by
          have h0 := hk0min 0 (by omega)
          rcases hatt : att 0 with _ | e
          · exact absurd hatt h0
          · exact ⟨e, rfl⟩
        rw [sendLoop_top_some cfg att _ _ e he]
        have hm : m < cfg.maxRetries := by omega
        have hrest := sendLoop_success cfg att m cfg.maxRetries 1
          (cfg.initialDelaySeconds : Rat) e (by omega) hm
          (by rw [show 1 + m = m + 1 from by omega, ← hk0eq]; exact hk0none)
          (fun j hj => by
            have := hk0min (1 + j) (by omega)
            exact this)
        rw [hrest, hinit, delays_delaySeq]
        simp [hk0eq]
    rw [hrun]
    refine ⟨by simp; omega, ?_, by simp, ?_, ?_⟩
    · simp only [true_iff]
      exact ⟨k0, hk0le, hk0none⟩
    · intro hall
      exact absurd hk0none (hall k0 hk0le)
    · intro k hk hknone hkmin
      have h1 : k0 ≤ k := Nat.find_min' hexw hknone
      have h2 : ¬(k0 < k) := fun hlt => absurd hk0none (hkmin k0 hlt)
      have : k = k0 := by omega
      simp [this]
  · have hall : ∀ k, k ≤ cfg.maxRetries → att k ≠ none := by
      intro k hk hnone
      exact hex ⟨k, hk, hnone⟩
    obtain ⟨e0, he0⟩ : ∃ e, att 0 = some e := by
      have h0 := hall 0 (by omega)
      rcases hatt : att 0 with _ | e
      · exact absurd hatt h0
      · exact ⟨e, rfl⟩
    obtain ⟨e, he, hrest⟩ := sendLoop_allfail cfg att cfg.maxRetries 1
      (cfg.initialDelaySeconds : Rat) e0 (by omega)
      (fun j hj => hall (1 + j) (by omega)) he0
    have heR : att cfg.maxRetries = some e := by
      rw [show (1 : Nat) + cfg.maxRetries - 1 = cfg.maxRetries from by omega] at he
      exact he
    have hrun : sendMessageRetryRun cfg att =
        ⟨.error (wrapFail cfg e),
         (List.range cfg.maxRetries).map (delaySeq cfg),
         cfg.maxRetries + 1⟩ := by
      unfold sendMessageRetryRun
      rw [sendLoop_top_some cfg att _ _ e0 he0, hrest, hinit, delays_delaySeq]
      simp
    rw [hrun]
    refine ⟨le_refl _, ?_, by simp, ?_, ?_⟩
    · constructor
      · intro hcon; cases hcon
      · intro hcon; exact absurd hcon hex
    · intro _
      exact ⟨e, heR, rfl, rfl⟩
    · intro k hk hknone _
      exact absurd hknone (hall k hk)

/-- Witness for C3: with 2 retries allowed, a failing attempt 0 and a
succeeding attempt 1, SendMessage returns nil after exactly 2 attempts
having slept exactly the first backoff delay. -/
theorem sendMessage_retry_witness :
    (sendMessageRetryRun cfgW attW).result = .ok () ∧
    (sendMessageRetryRun cfgW attW).attemptsMade = 2 ∧
    (sendMessageRetryRun cfgW attW).sleeps =
      (List.range 1).map (delaySeq cfgW) := by
  have h := sendMessage_retry_spec cfgW attW
  have hatt : (sendMessageRetryRun cfgW attW).attemptsMade = 2 :=
    h.2.2.2.2 1 (by norm_num [cfgW]) rfl (fun j hj hnone => by
      have hj0 : j = 0 := by omega
      rw [hj0] at hnone
      exact absurd hnone (by decide))
  refine ⟨h.2.1.mpr ⟨1, by norm_num [cfgW], rfl⟩, hatt, ?_⟩
  rw [h.2.2.1, hatt]

end WA
